import Mathlib

/-!
Shallow embedding of the anti-bot-aware scraping pipeline
(kingyx3/alert): protection signature detection, retry/backoff
strategies, product discovery cascade, field extraction,
availability checking, URL normalization and generic-container
scoring, together with theorems settling the specification claims.
-/

set_option maxRecDepth 4000

/-! ## String primitives

Python string operations used by the code: `str.lower()` (ASCII case
folding on the literals involved), the `in` substring test,
`str.startswith`, `str.strip`, and the truthiness-based `or`. -/

/-- Lowercase one character, ASCII range (what `str.lower` does on the
signature literals involved). -/
def lowerChar (c : Char) : Char :=
  if 65 ≤ c.toNat ∧ c.toNat ≤ 90 then Char.ofNat (c.toNat + 32) else c

/-- Python `s.lower()`. -/
def lowerStr (s : String) : String := String.mk (s.data.map lowerChar)

/-- Is `needle` a contiguous run inside `hay` (on character lists)? -/
def listContainsSub (needle : List Char) : List Char → Bool
  | [] => needle.isEmpty
  | c :: rest => needle.isPrefixOf (c :: rest) || listContainsSub needle rest

/-- Python `needle in hay` substring test. -/
def strMem (needle hay : String) : Bool := listContainsSub needle.data hay.data

/-- Python `s.startswith(pre)`. -/
def startsWithStr (s pre : String) : Bool := pre.data.isPrefixOf s.data

/-- Python `a or b` where `a` is a possibly-missing string
(`None` and the empty string are falsy). -/
def pyOrStr (a : Option String) (b : String) : String :=
  match a with
  | some s => if s = "" then b else s
  | none => b

/-! ## Protection Signature Detector

From `ETBWebDriverManager.is_blocked_by_protection` in
`scraper_intl.py`: five vendor indicator lists scanned in a fixed
order, each loop returning on its first hit. -/

def incapsula_indicators : List String :=
  ["incapsula incident id", "_incap_sys_visid_", "incapsula",
   "visid_incap_", "__incap"]

def cloudflare_indicators : List String :=
  ["cloudflare ray id", "checking your browser", "please enable cookies",
   "ddos protection by cloudflare", "attention required! | cloudflare",
   "cf-ray:", "__cf_bm", "cf_clearance", "cloudflare", "just a moment"]

def datadome_indicators : List String :=
  ["datadome", "dd_captcha", "_dd_s", "geo.captcha-delivery.com"]

def perimeterx_indicators : List String :=
  ["_px", "perimeterx", "px-captcha", "_pxhd"]

def bot_indicators : List String :=
  ["access denied", "blocked by security", "suspicious activity",
   "rate limit exceeded", "temporarily unavailable", "security check",
   "human verification", "robot or human", "verify you are human",
   "captcha", "too many requests"]

/-- `is_blocked_by_protection(page_source, page_title)`: the Incapsula,
DataDome and PerimeterX loops test the lowered page source only; the
Cloudflare and generic loops test the lowered source or the lowered
title; the first indicator hit returns that vendor. -/
def is_blocked_by_protection (page_source page_title : String) : Bool × String :=
  let psl := lowerStr page_source
  let ptl := lowerStr page_title
  if incapsula_indicators.any (fun i => strMem i psl) then (true, "Incapsula")
  else if cloudflare_indicators.any (fun i => strMem i psl || strMem i ptl) then
    (true, "Cloudflare")
  else if datadome_indicators.any (fun i => strMem i psl) then (true, "DataDome")
  else if perimeterx_indicators.any (fun i => strMem i psl) then (true, "PerimeterX")
  else if bot_indicators.any (fun i => strMem i psl || strMem i ptl) then
    (true, "Generic Anti-bot")
  else (false, "")

/-- One row of the vendor signature table: vendor name, its indicator
list, and whether its loop also consults the page title. -/
structure VendorSig where
  vname : String
  sigs : List String
  checksTitle : Bool

/-- The fixed vendor priority table, in the order the code checks it. -/
def protectionVendorTable : List VendorSig :=
  [⟨"Incapsula", incapsula_indicators, false⟩,
   ⟨"Cloudflare", cloudflare_indicators, true⟩,
   ⟨"DataDome", datadome_indicators, false⟩,
   ⟨"PerimeterX", perimeterx_indicators, false⟩,
   ⟨"Generic Anti-bot", bot_indicators, true⟩]

/-- Does a vendor row match the (already lowered) source and title? -/
def vendorMatches (psl ptl : String) (v : VendorSig) : Bool :=
  v.sigs.any (fun i => strMem i psl || (v.checksTitle && strMem i ptl))

/-- First-match-wins reading of the detector: scan the priority table
and return the first row that matches its designated fields. -/
def detectVendor (page_source page_title : String) : Bool × String :=
  match protectionVendorTable.find?
      (vendorMatches (lowerStr page_source) (lowerStr page_title)) with
  | some v => (true, v.vname)
  | none => (false, "")

/-! ## Retry/Backoff Controller

From `InternationalETBScraper._handle_protection_retry`: a fixed
ordered list of five named strategies, each invoked at most once, the
loop returning at the first strategy whose call returns success; a
failing or raising strategy falls through to the next. -/

/-- Outcome of invoking one retry strategy: it returned True, returned
False, or raised (the loop catches the exception and continues). -/
inductive StratOutcome where
  | success
  | failure
  | error
deriving DecidableEq

/-- The five strategy names, in the order of `retry_strategies`. -/
def retry_strategy_names : List String :=
  ["Progressive delay with navigation",
   "Clear cookies and stealth reload",
   "Human-like browsing simulation",
   "Long wait and reload",
   "Random delay retry"]

/-- Run the strategy list against the given per-strategy outcomes,
returning the overall result and the trace of strategy names invoked,
in invocation order. -/
def runRetryStrategies : List (String × StratOutcome) → Bool × List String
  | [] => (false, [])
  | (n, o) :: rest =>
    match o with
    | .success => (true, [n])
    | _ =>
      let r := runRetryStrategies rest
      (r.1, n :: r.2)

/-- `_handle_protection_retry`, abstracted over the outcome each
strategy would produce when invoked (the protection type only feeds a
log line and is dropped). -/
def handle_protection_retry (outcomes : List StratOutcome) : Bool × List String :=
  runRetryStrategies (retry_strategy_names.zip outcomes)

/-! ## Progressive-delay retry strategy

From `InternationalETBScraper._retry_progressive_delay`: three
escalating waits of 15, 30 and 45 seconds; after each wait the code
clears local and session storage, reloads, sleeps 8 seconds and
re-runs the blocked check, returning success immediately when it
reports unblocked. -/

/-- One observable browser/driver action performed by the strategy. -/
inductive DriverEvent where
  | wait (secs : Nat)
  | clearLocalStorage
  | clearSessionStorage
  | reload
  | blockedCheck (blocked : Bool)
deriving DecidableEq

/-- The fixed escalating delays of `_retry_progressive_delay`. -/
def progressive_delays : List Nat := [15, 30, 45]

/-- The event trace of one progressive-delay attempt with the given
delay, whose blocked-check reported `b`. -/
def attemptTrace (delay : Nat) (b : Bool) : List DriverEvent :=
  [DriverEvent.wait delay, DriverEvent.clearLocalStorage,
   DriverEvent.clearSessionStorage, DriverEvent.reload,
   DriverEvent.wait 8, DriverEvent.blockedCheck b]

/-- The attempt loop of `_retry_progressive_delay`: `blockedAfter i`
is what the blocked check reports after the reload of attempt `i`. -/
def runProgressiveAttempts (blockedAfter : Nat → Bool) :
    Nat → List Nat → Bool × List DriverEvent
  | _, [] => (false, [])
  | i, d :: rest =>
    if blockedAfter i = false then (true, attemptTrace d false)
    else
      let r := runProgressiveAttempts blockedAfter (i + 1) rest
      (r.1, attemptTrace d true ++ r.2)

/-- `_retry_progressive_delay`, abstracted over the post-reload
blocked-check results; returns success/failure and the trace of driver
actions performed. -/
def retry_progressive_delay (blockedAfter : Nat → Bool) : Bool × List DriverEvent :=
  runProgressiveAttempts blockedAfter 0 progressive_delays

/-! ## Product Discovery Engine

From `ETBProductExtractor.wait_for_products_to_load` and
`_try_fallback_product_detection`: a fixed selector list is tried
first, the first selector yielding elements returning immediately;
only when every selector yields nothing does the fallback cascade run,
each fallback strategy only reached when every earlier one returned no
elements (the debug strategy inspects the page but never returns
elements). -/

/-- The fixed exact-selector list `ETB_PRODUCT_SELECTORS`. -/
def ETB_PRODUCT_SELECTORS : List String := ["div.product--feNDW"]

/-- The fallback strategies of `_try_fallback_product_detection`, in
source order. -/
inductive FallbackTier where
  | priceAnchor
  | linkPattern
  | genericContainer
  | advancedDom
  | debugPage
  | dynamicContent
deriving DecidableEq

/-- Source order of the fallback strategies. -/
def fallbackOrder : List FallbackTier :=
  [FallbackTier.priceAnchor, FallbackTier.linkPattern,
   FallbackTier.genericContainer, FallbackTier.advancedDom,
   FallbackTier.debugPage, FallbackTier.dynamicContent]

/-- The fallback strategies strictly before `t` in source order. -/
def tiersBefore (t : FallbackTier) : List FallbackTier :=
  fallbackOrder.takeWhile (fun u => u ≠ t)

/-- Page environment for discovery: what each exact CSS selector
yields (elements as opaque handles; an empty list covers both a
timeout and a zero-element match), and what each fallback strategy
would yield if invoked. -/
structure DiscoveryEnv where
  selectorElems : String → List Nat
  tierElems : FallbackTier → List Nat

/-- The exact-selector loop: elements of the first selector that
yields any, else none. -/
def tryExactSelectors (env : DiscoveryEnv) : List String → Option (List Nat)
  | [] => none
  | sel :: rest =>
    let es := env.selectorElems sel
    if es ≠ [] then some es else tryExactSelectors env rest

/-- `_try_fallback_product_detection`: price-anchor, link-pattern,
generic-container, advanced DOM analysis, page-structure debug (which
never yields elements), then dynamic-content detection; each returns
immediately on the first strategy with a non-empty result. Returns the
elements found together with the trace of strategies invoked. -/
def try_fallback_product_detection (env : DiscoveryEnv) :
    List Nat × List FallbackTier :=
  let p := env.tierElems FallbackTier.priceAnchor
  if p ≠ [] then (p, [FallbackTier.priceAnchor])
  else
    let pat := env.tierElems FallbackTier.linkPattern
    if pat ≠ [] then (pat, [FallbackTier.priceAnchor, FallbackTier.linkPattern])
    else
      let g := env.tierElems FallbackTier.genericContainer
      if g ≠ [] then
        (g, [FallbackTier.priceAnchor, FallbackTier.linkPattern,
             FallbackTier.genericContainer])
      else
        let a := env.tierElems FallbackTier.advancedDom
        if a ≠ [] then
          (a, [FallbackTier.priceAnchor, FallbackTier.linkPattern,
               FallbackTier.genericContainer, FallbackTier.advancedDom])
        else
          let d := env.tierElems FallbackTier.dynamicContent
          if d ≠ [] then
            (d, [FallbackTier.priceAnchor, FallbackTier.linkPattern,
                 FallbackTier.genericContainer, FallbackTier.advancedDom,
                 FallbackTier.debugPage, FallbackTier.dynamicContent])
          else
            ([], [FallbackTier.priceAnchor, FallbackTier.linkPattern,
                  FallbackTier.genericContainer, FallbackTier.advancedDom,
                  FallbackTier.debugPage, FallbackTier.dynamicContent])

/-- `wait_for_products_to_load`: exact selectors first, fallback
cascade only when every selector yielded nothing. Returns the elements
and the trace of fallback strategies invoked. -/
def wait_for_products_to_load (env : DiscoveryEnv) :
    List Nat × List FallbackTier :=
  match tryExactSelectors env ETB_PRODUCT_SELECTORS with
  | some es => (es, [])
  | none => try_fallback_product_detection env

/-! ## Field Extractor

From `ProductExtractor` in
`scraper_components/core/product_extractor.py` (title/image/url
selector waterfalls, `extract_product_info_from_element`), the batch
loop `BrowserScraper._extract_products_from_elements`, and the ETB
variant `ETBProductExtractor.extract_product_info` with its title
waterfall and its own-text / first-link-text fallbacks. A DOM element
is modelled as its attribute list, its visible text, and the first
descendant each CSS selector would return (absence standing for
`NoSuchElementException`). -/

/-- A DOM element handle: attributes, visible text, and the first
descendant matched by each selector (`find_element` result). -/
inductive Elem where
  | node (attrs : List (String × String)) (text : String)
      (kids : List (String × Elem)) : Elem

/-- The attribute list of an element. -/
def Elem.attrList : Elem → List (String × String)
  | .node a _ _ => a

/-- The visible text of an element (`element.text`, with `None`
already collapsed to the empty string). -/
def Elem.textOf : Elem → String
  | .node _ t _ => t

/-- `element.find_element(By.CSS_SELECTOR, sel)`: the first descendant
for `sel`, or none for `NoSuchElementException`. -/
def Elem.findSel : Elem → String → Option Elem
  | .node _ _ kids, sel => (kids.find? (fun p => p.1 = sel)).map (fun p => p.2)

/-- `element.get_attribute(a)`: the attribute value, or none. -/
def Elem.attr (e : Elem) (a : String) : Option String :=
  (e.attrList.find? (fun p => p.1 = a)).map (fun p => p.2)

/-- `TITLE_SELECTORS` from `scraper_components/config/constants.py`. -/
def TITLE_SELECTORS : List String :=
  ["h2", "h3", ".title", "[data-qa-locator=\"product-name\"]",
   "a[title]", "[class*=\"title\"]", "[class*=\"Title\"]"]

/-- The selector loop of `ProductExtractor._extract_title`: first
selector whose element has a non-empty `title` attribute or stripped
text wins. -/
def extract_title_from (e : Elem) : List String → String
  | [] => ""
  | sel :: rest =>
    match e.findSel sel with
    | none => extract_title_from e rest
    | some te =>
      let title := pyOrStr (te.attr "title") te.textOf.trim
      if title = "" then extract_title_from e rest else title

/-- `ProductExtractor._extract_title`. -/
def extract_title (e : Elem) : String := extract_title_from e TITLE_SELECTORS

/-- `ProductExtractor._extract_image_url`: `src` or `data-src` of the
first `img` descendant, else the empty string. -/
def extract_image_url (e : Elem) : String :=
  match e.findSel "img" with
  | none => ""
  | some img => pyOrStr (img.attr "src") (pyOrStr (img.attr "data-src") "")

/-- `ProductExtractor._extract_product_url`: `href` of the first `a`
descendant, else the empty string. -/
def extract_product_url (e : Elem) : String :=
  match e.findSel "a" with
  | none => ""
  | some link => pyOrStr (link.attr "href") ""

/-- The `Product` value built by `extract_product_info_from_element`. -/
structure Product where
  title : String
  image : String
  url : String
deriving DecidableEq

/-- `ProductExtractor.extract_product_info_from_element`: builds a
Product only under `if title:`; image and url are taken as extracted,
empty or not. -/
def extract_product_info_from_element (e : Elem) : Option Product :=
  let title := extract_title e
  let image := extract_image_url e
  let url := extract_product_url e
  if title = "" then none
  else some ⟨pyOrStr (some title) "No title available", image, url⟩

/-- `BrowserScraper._extract_products_from_elements`: per-element
extraction, appending only non-null products. -/
def extract_products_from_elements (es : List Elem) : List Product :=
  es.filterMap extract_product_info_from_element

/-- `ETB_TITLE_SELECTORS` from `scraper_intl.py`. -/
def ETB_TITLE_SELECTORS : List String :=
  ["[data-product-name]", ".product-name", ".product-title",
   ".item-title", ".item-name", "h1", "h2", "h3", "h4", ".title",
   "[class*=\"title\"]", "[class*=\"name\"]", "a[title]", ".etb-title",
   ".etb-product-name"]

/-- The final fallback of `ETBProductExtractor._extract_title`: the
element's own stripped text when non-empty and shorter than 200
characters, else the stripped text of its first link. -/
def etb_title_fallback (e : Elem) : String :=
  let element_text := e.textOf.trim
  if element_text ≠ "" ∧ element_text.length < 200 then element_text
  else
    match e.findSel "a" with
    | none => ""
    | some link =>
      let link_text := link.textOf.trim
      if link_text ≠ "" then link_text else ""

/-- The selector loop of `ETBProductExtractor._extract_title`. -/
def etb_extract_title_from (e : Elem) : List String → String
  | [] => etb_title_fallback e
  | sel :: rest =>
    match e.findSel sel with
    | none => etb_extract_title_from e rest
    | some te =>
      let title := pyOrStr (te.attr "title") te.textOf.trim
      if title.trim = "" then etb_extract_title_from e rest else title.trim

/-- `ETBProductExtractor._extract_title`, selector waterfall plus the
own-text / first-link-text fallbacks. -/
def etb_extract_title (e : Elem) : String :=
  etb_extract_title_from e ETB_TITLE_SELECTORS

/-- The product dictionary built by
`ETBProductExtractor.extract_product_info`. The price is an opaque
value of some type `α` (a parsed float in the code). -/
structure ETBProduct (α : Type) where
  name : String
  price : Option α
  priceShow : String
  image : String
  url : String
  inStock : Bool
  source : String
  extracted_at : String

/-- `ETBProductExtractor.extract_product_info`. The per-field helpers
`_extract_price` (regex float parse over the price selector
waterfall), `_extract_image_url` and `_extract_product_url` (selector
waterfalls plus URL normalization against the driver state) are passed
in as the functions `priceOf`, `truthy`/`render` (Python truthiness
and `str` on the price), `imageOf` and `urlOf`; the title waterfall is
the embedded `etb_extract_title`. The dictionary is returned only
under `if product[name]:`. -/
def etb_extract_product_info {α : Type} (priceOf : Elem → Option α)
    (truthy : α → Bool) (render : α → String)
    (imageOf urlOf : Elem → String) (now : String) (e : Elem) :
    Option (ETBProduct α) :=
  let name := etb_extract_title e
  let price := priceOf e
  let product : ETBProduct α :=
    { name := name
      price := price
      priceShow :=
        match price with
        | some p => if truthy p then render p else ""
        | none => ""
      image := imageOf e
      url := urlOf e
      inStock := true
      source := "ETB International"
      extracted_at := now }
  if name = "" then none else some product

/-! ## URL normalization

`normalize_url` from `scraper_components/utils/helpers.py`. -/

/-- `normalize_url(url, base_domain)`: empty in, empty out; absolute
(anything starting with "http") unchanged; protocol-relative gets
"https:" prefixed; root-relative gets the base domain prepended; other
relative forms unchanged. -/
def normalize_url (url : String) (base_domain : String) : String :=
  if url = "" then ""
  else if startsWithStr url "http" then url
  else if startsWithStr url "//" then "https:" ++ url
  else if startsWithStr url "/" then base_domain ++ url
  else url

/-- The default `base_domain` of `normalize_url`. -/
def default_base_domain : String := "https://www.lazada.sg"

/-! ## Availability Checker

From `scraper_components/core/availability_checker.py` and the batch
loop `BrowserScraper._check_products_availability`. Driver
interactions that can raise are modelled as `Except` values in an
environment record; the checker's own try/except blocks are the
corresponding `match` arms. -/

/-- `BUY_INDICATORS` from `scraper_components/config/constants.py`. -/
def BUY_INDICATORS : List String :=
  ["buy now", "buy", "add to cart", "add to bag", "purchase", "order now",
   "add-to-cart", "buy-now", "add item", "order", "checkout", "get it now"]

/-- `QUANTITY_SELECTORS` from `scraper_components/config/constants.py`. -/
def QUANTITY_SELECTORS : List String :=
  ["input[type=\"number\"]", "[class*=\"quantity\"]", "[class*=\"qty\"]",
   "[data-qa*=\"quantity\"]", "[data-testid*=\"quantity\"]",
   "select[class*=\"quantity\"]", "input[name*=\"quantity\"]",
   "input[name*=\"qty\"]"]

/-- `AvailabilityChecker.check_availability_indicators` on a page
source already in hand: any buy indicator in the lowered source. -/
def check_availability_indicators (page_source : String) : Bool × String :=
  let src := lowerStr page_source
  if BUY_INDICATORS.any (fun i => strMem i src) then
    (true, "Buy/Add to cart options available")
  else (false, "No buy options found")

/-- `AvailabilityChecker._is_quantity_disabled`. -/
def is_quantity_disabled (e : Elem) : Bool :=
  let class_attr := lowerStr (pyOrStr (e.attr "class") "")
  (e.attr "disabled").isSome || (e.attr "readonly").isSome ||
    (if class_attr ≠ "" then strMem "disabled" class_attr else false)

/-- `AvailabilityChecker.check_quantity_selector_disabled`: scan the
quantity selectors for any disabled element (`find_elements` per
selector supplied by the environment). -/
def check_quantity_selector_disabled (findElems : String → List Elem) : Bool :=
  QUANTITY_SELECTORS.any (fun sel => (findElems sel).any is_quantity_disabled)

/-- Environment for one `check_product_availability` call: each driver
interaction either yields a value or raises with a message. -/
structure AvailEnv where
  navigate : Except String Unit
  pageReady : Except String Bool
  priceResult : Except String (Option String)
  pageSource : Except String String
  quantityElems : String → List Elem

/-- The try/except of `check_availability_indicators` around the
`driver.page_source` read. -/
def check_availability_indicators_env (src : Except String String) :
    Bool × String :=
  match src with
  | .ok s => check_availability_indicators s
  | .error e => (false, "Error checking indicators: " ++ e)

/-- The `Available - price` status string. -/
def availableStatus (price : Option String) : String :=
  "Available" ++
    (match price with
     | some p => if p = "" then "" else " - " ++ p
     | none => "")

/-- `AvailabilityChecker.check_product_availability`: URL check, then
navigation, page validation, price extraction and the indicator check,
any raising step landing in the outer except which returns
`(False, "Error: ...", None)`. -/
def check_product_availability (env : AvailEnv) (product_url : String) :
    Bool × String × Option String :=
  let normalized_url := normalize_url product_url default_base_domain
  if ¬ (normalized_url ≠ "" ∧ startsWithStr normalized_url "http") then
    (false, "Invalid URL", none)
  else
    match env.navigate with
    | .error e => (false, "Error: " ++ e, none)
    | .ok _ =>
      match env.pageReady with
      | .error e => (false, "Error: " ++ e, none)
      | .ok false => (false, "Page failed to load correctly", none)
      | .ok true =>
        match env.priceResult with
        | .error e => (false, "Error: " ++ e, none)
        | .ok price =>
          let r := check_availability_indicators_env env.pageSource
          if r.1 then (true, availableStatus price, price)
          else (false, "Not available (" ++ r.2 ++ ")", price)

/-- A product as the batch loop sees it: discovery fields plus the
availability fields it fills in. -/
structure BatchProduct where
  title : String
  url : String
  availability_status : String
  is_available : Bool
  price : Option String
deriving DecidableEq

/-- `BrowserScraper._check_products_availability`, abstracted over the
per-URL environment: every product is processed in order; products
with a URL are checked and updated, the available ones collected;
products without a URL are marked unavailable. Returns the updated
batch and the available sublist. -/
def check_products_availability (envOf : String → AvailEnv)
    (products : List BatchProduct) :
    List BatchProduct × List BatchProduct :=
  match products with
  | [] => ([], [])
  | p :: rest =>
    let updated :=
      if p.url ≠ "" then
        let r := check_product_availability (envOf p.url) p.url
        { p with availability_status := r.2.1, is_available := r.1,
                 price := r.2.2 }
      else
        { p with availability_status := "No URL available",
                 is_available := false, price := none }
    let tail := check_products_availability envOf rest
    (updated :: tail.1,
     if updated.is_available then updated :: tail.2 else tail.2)

/-! ## Generic-container scoring

From `ETBProductExtractor._score_element_as_product`,
`_element_has_content` and `_href_looks_like_product` in
`scraper_intl.py`. The features the code inspects are gathered in a
record; an exception escaping to the outer handler is the
`raisesOutside` flag, and an exception inside the size check is
`size = none`. -/

def product_url_patterns : List String :=
  ["/product", "/item", "/shop", "/buy", "/p/", "/goods",
   "product=", "item=", "id=", "sku=", "/widget"]

def price_text_indicators : List String :=
  ["$", "€", "£", "usd", "eur", "price", "cost", ".99", ".95"]

def product_type_indicators : List String :=
  ["box", "pack", "card", "game", "toy", "collectible"]

def action_indicators : List String :=
  ["buy", "add", "cart", "purchase", "shop"]

def attr_product_terms : List String :=
  ["product", "item", "card", "listing"]

/-- `ETBProductExtractor._href_looks_like_product`. -/
def href_looks_like_product (href : String) : Bool :=
  if href = "" ∨ href = "#" then false
  else product_url_patterns.any (fun p => strMem p (lowerStr href))

/-- The features of one candidate element that
`_score_element_as_product` inspects. `links` carries the href of each
`a` descendant (none when `get_attribute` yields None); `size = none`
models an exception inside the size check (swallowed by its inner
try/except); `raisesOutside` models an exception escaping to the outer
handler. -/
structure ScoreFeatures where
  raisesOutside : Bool
  images : Nat
  links : List (Option String)
  text : String
  classAttr : Option String
  idAttr : Option String
  size : Option (Nat × Nat)

/-- `ETBProductExtractor._element_has_content`: any link, any image,
or stripped text longer than 5 characters. -/
def element_has_content (f : ScoreFeatures) : Bool :=
  ¬ f.links.isEmpty || f.images > 0 || f.text.trim.length > 5

/-- The running total of `_score_element_as_product` before the final
`max(0, score)`: images, links (with the product-href bonus over the
first three links), price/product/action text tokens, class/id tokens,
and the size bonus/penalty. -/
def raw_score (f : ScoreFeatures) : Int :=
  let s1 : Int :=
    if f.images > 0 then 2 + (if f.images > 1 then 1 else 0) else 0
  let s2 := s1 +
    (if ¬ f.links.isEmpty then
      1 + (if (f.links.take 3).any
            (fun h => (h.map href_looks_like_product).getD false) then 2
          else 0)
    else 0)
  let txt := lowerStr f.text
  let s3 := s2 + (if price_text_indicators.any (fun i => strMem i txt) then 3 else 0)
  let s4 := s3 + (if product_type_indicators.any (fun i => strMem i txt) then 2 else 0)
  let s5 := s4 + (if action_indicators.any (fun i => strMem i txt) then 1 else 0)
  let attrs := lowerStr (pyOrStr f.classAttr "" ++ " " ++ pyOrStr f.idAttr "")
  let s6 := s5 + (if attr_product_terms.any (fun t => strMem t attrs) then 3 else 0)
  match f.size with
  | none => s6
  | some (w, h) =>
    (s6 + (if w > 100 ∧ h > 100 then 1 else 0)) -
      (if w < 50 ∨ h < 50 then 2 else 0)

/-- `ETBProductExtractor._score_element_as_product`: 0 when the outer
handler catches an exception, 0 when the element has no content, else
the clamped running total `max(0, score)`. -/
def score_element_as_product (f : ScoreFeatures) : Int :=
  if f.raisesOutside then 0
  else if ¬ element_has_content f then 0
  else max 0 (raw_score f)

/-- A content-bearing element (one href-less link) that is implausibly
small: its running total is 1 - 2 = -1. -/
def sampleScoreElem : ScoreFeatures :=
  ⟨false, 0, [none], "", none, none, some (10, 10)⟩

/-! ## Theorems

Sanity examples and the claim theorems, with their helper lemmas. -/

example : is_blocked_by_protection "foo incapsula bar" "" = (true, "Incapsula") := by decide
example : is_blocked_by_protection "_pxhd and datadome" "" = (true, "DataDome") := by decide
example : is_blocked_by_protection "" "Just a Moment" = (true, "Cloudflare") := by decide
example : is_blocked_by_protection "" "Incapsula" = (false, "") := by decide
example : is_blocked_by_protection "hello" "world" = (false, "") := by decide

theorem c1_equiv_table (s t : String) :
    is_blocked_by_protection s t = detectVendor s t := by
  unfold is_blocked_by_protection detectVendor protectionVendorTable
  simp only [List.find?, vendorMatches, Bool.false_and, Bool.true_and, Bool.or_false]
  cases h1 : incapsula_indicators.any (fun i => strMem i (lowerStr s)) <;>
    cases h2 : cloudflare_indicators.any
        (fun i => strMem i (lowerStr s) || strMem i (lowerStr t)) <;>
      cases h3 : datadome_indicators.any (fun i => strMem i (lowerStr s)) <;>
        cases h4 : perimeterx_indicators.any (fun i => strMem i (lowerStr s)) <;>
          cases h5 : bot_indicators.any
              (fun i => strMem i (lowerStr s) || strMem i (lowerStr t)) <;>
            simp [h1, h2, h3, h4, h5]

/-- Claim C1, counterexample to the claim as stated: the Incapsula
signature "incapsula" occurs case-insensitively in the page title
"Incapsula", yet the detector reports no block, because the Incapsula,
DataDome and PerimeterX loops search the page source only (the title is
consulted only by the Cloudflare and generic loops). -/
theorem c1_counterexample :
    "incapsula" ∈ incapsula_indicators ∧
    strMem "incapsula" (lowerStr "Incapsula") = true ∧
    is_blocked_by_protection "" "Incapsula" = (false, "") :=
  ⟨by decide, by decide, by decide⟩

/-- Claim C1 (amended): the detector scans the fixed vendor priority
table Incapsula, Cloudflare, DataDome, PerimeterX, Generic Anti-bot and
returns the first vendor one of whose signatures occurs
case-insensitively in its designated fields — the page source only for
Incapsula, DataDome and PerimeterX, the page source or the page title
for Cloudflare and Generic Anti-bot; first match wins even when a later
vendor also matches, and it reports no block exactly when no vendor row
matches. -/
theorem c1_detector_priority_first_match (s t : String) :
    is_blocked_by_protection s t = detectVendor s t ∧
    (is_blocked_by_protection s t = (false, "") ↔
      ∀ v ∈ protectionVendorTable,
        vendorMatches (lowerStr s) (lowerStr t) v = false) := by
  refine ⟨c1_equiv_table s t, ?_⟩
  rw [c1_equiv_table s t]
  unfold detectVendor
  cases hf : protectionVendorTable.find?
      (vendorMatches (lowerStr s) (lowerStr t)) with
  | none =>
    rw [List.find?_eq_none] at hf
    simpa using hf
  | some v =>
    have hmem := List.mem_of_find?_eq_some hf
    have hp := List.find?_some hf
    simp only [Prod.mk.injEq]
    constructor
    · intro h
      exact absurd h.1 (by simp)
    · intro h
      have := h v hmem
      rw [this] at hp
      exact absurd hp (by simp)

/-- Claim C9: the Protection Signature Detector is a pure, deterministic
function of its two string inputs: the body of
`is_blocked_by_protection` reads nothing but `page_source` and
`page_title` (no driver access, no attribute reads, no mutation), which
the embedding renders as a plain function of two strings, so any two
invocations on equal inputs return equal (blocked, vendor) results. -/
theorem c9_detector_deterministic (s1 t1 s2 t2 : String)
    (hs : s1 = s2) (ht : t1 = t2) :
    is_blocked_by_protection s1 t1 = is_blocked_by_protection s2 t2 := by
  rw [hs, ht]

/-- Claim C9 witness at concrete inputs. -/
theorem c9_detector_deterministic_witness :
    is_blocked_by_protection "just a moment" "x" =
      is_blocked_by_protection "just a moment" "x" :=
  c9_detector_deterministic "just a moment" "x" "just a moment" "x" rfl rfl

example :
    handle_protection_retry [.failure, .error, .success, .failure, .success] =
      (true, ["Progressive delay with navigation",
              "Clear cookies and stealth reload",
              "Human-like browsing simulation"]) := by decide

example :
    handle_protection_retry [.failure, .failure, .failure, .failure, .failure] =
      (false, retry_strategy_names) := by decide

/-- Claim C2: in any run where the blocked-check first reports
unblocked during strategy 3 (strategies 1 and 2 each returned failure
or raised, strategy 3 succeeded), the controller reports success and
its invocation trace is exactly strategy 1 then strategy 2 then
strategy 3 — each of 1 and 2 invoked exactly once, in order, before 3,
and strategies 4 and 5 never invoked, whatever they would have done. -/
theorem c2_retry_cascade_order (o1 o2 o4 o5 : StratOutcome)
    (h1 : o1 ≠ StratOutcome.success) (h2 : o2 ≠ StratOutcome.success) :
    handle_protection_retry [o1, o2, StratOutcome.success, o4, o5] =
      (true, ["Progressive delay with navigation",
              "Clear cookies and stealth reload",
              "Human-like browsing simulation"]) := by
  cases o1 <;> cases o2 <;> simp_all <;> rfl

/-- Claim C2 witness: strategies 1 and 2 fail, strategy 3 succeeds. -/
theorem c2_retry_cascade_order_witness :
    handle_protection_retry
        [StratOutcome.failure, StratOutcome.error, StratOutcome.success,
         StratOutcome.failure, StratOutcome.success] =
      (true, ["Progressive delay with navigation",
              "Clear cookies and stealth reload",
              "Human-like browsing simulation"]) :=
  c2_retry_cascade_order StratOutcome.failure StratOutcome.error
    StratOutcome.failure StratOutcome.success (by decide) (by decide)

/-- Claim C7: the progressive-delay strategy performs at most three
escalating attempts with waits of 15s, 30s and 45s in that order, each
attempt clearing local and session storage and reloading before its
blocked check; it returns success right after the first check that
reports unblocked, skipping the remaining longer waits, and reports
failure exactly when all three attempts remain blocked. -/
theorem c7_progressive_delay (f : Nat → Bool) :
    retry_progressive_delay f =
      if f 0 = false then (true, attemptTrace 15 false)
      else if f 1 = false then
        (true, attemptTrace 15 true ++ attemptTrace 30 false)
      else if f 2 = false then
        (true, attemptTrace 15 true ++ attemptTrace 30 true ++
          attemptTrace 45 false)
      else
        (false, attemptTrace 15 true ++ attemptTrace 30 true ++
          attemptTrace 45 true) := by
  unfold retry_progressive_delay progressive_delays runProgressiveAttempts
  cases h0 : f 0 <;> cases h1 : f 1 <;> cases h2 : f 2 <;>
    simp [h0, h1, h2, runProgressiveAttempts]

theorem fallback_trace_before (env : DiscoveryEnv) (t : FallbackTier)
    (ht : t ∈ (try_fallback_product_detection env).2)
    (u : FallbackTier) (hu : u ∈ tiersBefore t)
    (hd : u ≠ FallbackTier.debugPage) : env.tierElems u = [] := by
  unfold try_fallback_product_detection at ht
  by_cases hp : env.tierElems FallbackTier.priceAnchor = [] <;>
    by_cases hl : env.tierElems FallbackTier.linkPattern = [] <;>
      by_cases hg : env.tierElems FallbackTier.genericContainer = [] <;>
        by_cases ha : env.tierElems FallbackTier.advancedDom = [] <;>
          by_cases hy : env.tierElems FallbackTier.dynamicContent = [] <;>
            simp only [hp, hl, hg, ha, hy, ne_eq, not_true_eq_false,
              not_false_eq_true, if_true, if_false, ite_true, ite_false,
              List.mem_cons, List.mem_singleton, List.not_mem_nil] at ht <;>
            cases t <;> cases u <;>
              first
                | assumption
                | exact absurd ht (by decide)
                | exact absurd hu (by decide)
                | exact absurd rfl hd

/-- Claim C3: the discovery cascade short-circuits. Whenever some exact
selector yields at least one element, the result is that selector's
elements and no fallback strategy is invoked; and any fallback strategy
appearing in the invocation trace was reached only after every exact
selector yielded zero elements and every earlier element-producing
fallback strategy (the debug step produces none by construction)
yielded zero elements. -/
theorem c3_discovery_short_circuit (env : DiscoveryEnv) :
    (∀ sel ∈ ETB_PRODUCT_SELECTORS, env.selectorElems sel ≠ [] →
      (wait_for_products_to_load env).2 = [] ∧
      ∃ s ∈ ETB_PRODUCT_SELECTORS, env.selectorElems s ≠ [] ∧
        (wait_for_products_to_load env).1 = env.selectorElems s) ∧
    (∀ t ∈ (wait_for_products_to_load env).2,
      (∀ sel ∈ ETB_PRODUCT_SELECTORS, env.selectorElems sel = []) ∧
      ∀ u ∈ tiersBefore t, u ≠ FallbackTier.debugPage →
        env.tierElems u = []) := by
  constructor
  · intro sel hsel hne
    have hx : sel = "div.product--feNDW" := by
      simpa [ETB_PRODUCT_SELECTORS] using hsel
    subst hx
    have hw : wait_for_products_to_load env =
        (env.selectorElems "div.product--feNDW", []) := by
      unfold wait_for_products_to_load tryExactSelectors
      simp [ETB_PRODUCT_SELECTORS, hne]
    exact ⟨by rw [hw],
      ⟨"div.product--feNDW", by simp [ETB_PRODUCT_SELECTORS], hne, by rw [hw]⟩⟩
  · intro t ht
    by_cases hne : env.selectorElems "div.product--feNDW" = []
    · have hw : wait_for_products_to_load env = try_fallback_product_detection env := by
        unfold wait_for_products_to_load
        simp [ETB_PRODUCT_SELECTORS, hne, tryExactSelectors]
      rw [hw] at ht
      refine ⟨?_, fun u hu hd => fallback_trace_before env t ht u hu hd⟩
      intro sel hsel
      have hx : sel = "div.product--feNDW" := by
        simpa [ETB_PRODUCT_SELECTORS] using hsel
      rw [hx]
      exact hne
    · have hw : wait_for_products_to_load env =
          (env.selectorElems "div.product--feNDW", []) := by
        unfold wait_for_products_to_load tryExactSelectors
        simp [ETB_PRODUCT_SELECTORS, hne]
      rw [hw] at ht
      exact absurd ht (List.not_mem_nil t)

/-- Claim C3 witness: an environment where the exact selector yields
one element; the trace of fallback strategies is empty and the exact
result is returned. -/
theorem c3_discovery_short_circuit_witness :
    (wait_for_products_to_load
        ⟨fun _ => [7], fun _ => [1, 2]⟩).2 = [] ∧
    ∃ s ∈ ETB_PRODUCT_SELECTORS,
      (fun _ : String => [7]) s ≠ [] ∧
      (wait_for_products_to_load ⟨fun _ => [7], fun _ => [1, 2]⟩).1 =
        (fun _ : String => [7]) s :=
  (c3_discovery_short_circuit ⟨fun _ => [7], fun _ => [1, 2]⟩).1
    "div.product--feNDW" (by decide) (by decide)

/-- Claim C4: the field extractor returns null exactly when the
extracted title is empty after all title fallbacks; consequently every
Product appended by the batch loop has a non-empty title; a missing
image, price or URL only degrades the field and never rejects the
candidate (the result is determined by the title alone), in both the
component extractor and the ETB extractor. -/
theorem c4_title_gate (e : Elem) (es : List Elem) :
    (extract_product_info_from_element e = none ↔ extract_title e = "") ∧
    (∀ p ∈ extract_products_from_elements es, p.title ≠ "") ∧
    (∀ (α : Type) (priceOf : Elem → Option α) (truthy : α → Bool)
        (render : α → String) (imageOf urlOf : Elem → String)
        (now : String),
      (etb_extract_product_info priceOf truthy render imageOf urlOf now e
          = none ↔ etb_extract_title e = "") ∧
      (∀ q, etb_extract_product_info priceOf truthy render imageOf urlOf
          now e = some q → q.name = etb_extract_title e ∧ q.name ≠ "")) := by
  refine ⟨?_, ?_, ?_⟩
  · by_cases h : extract_title e = "" <;>
      simp [extract_product_info_from_element, h]
  · intro p hp
    rw [extract_products_from_elements, List.mem_filterMap] at hp
    obtain ⟨e2, _, hf⟩ := hp
    by_cases h : extract_title e2 = ""
    · simp [extract_product_info_from_element, h] at hf
    · simp only [extract_product_info_from_element, h, if_false,
        ite_false, Option.some.injEq] at hf
      rw [← hf]
      simp [pyOrStr, h]
  · intro α priceOf truthy render imageOf urlOf now
    constructor
    · by_cases h : etb_extract_title e = "" <;>
        simp [etb_extract_product_info, h]
    · intro q hq
      by_cases h : etb_extract_title e = ""
      · simp [etb_extract_product_info, h] at hq
      · simp only [etb_extract_product_info, h, if_false, ite_false,
          Option.some.injEq] at hq
        rw [← hq]
        exact ⟨rfl, h⟩

/-- Claim C4 witness: a concrete element whose `h2` child carries a
title attribute yields a product with that title; an element with no
usable title yields none; the batch keeps only the titled product. -/
theorem c4_title_gate_witness :
    (extract_product_info_from_element
        (Elem.node [] "" [("h2", Elem.node [("title", "Widget")] "" [])])
        = none ↔
      extract_title
        (Elem.node [] "" [("h2", Elem.node [("title", "Widget")] "" [])])
        = "") ∧
    ∀ p ∈ extract_products_from_elements
        [Elem.node [] "" [("h2", Elem.node [("title", "Widget")] "" [])],
         Elem.node [] "" []],
      p.title ≠ "" := by
  refine ⟨(c4_title_gate
      (Elem.node [] "" [("h2", Elem.node [("title", "Widget")] "" [])])
      []).1, ?_⟩
  exact (c4_title_gate (Elem.node [] "" [])
      [Elem.node [] "" [("h2", Elem.node [("title", "Widget")] "" [])],
       Elem.node [] "" []]).2.1

/-- Claim C5: when validation succeeds (navigation ok, page ready true,
price extraction returns, page source readable), the final verdict is
available exactly when some literal buy indicator occurs
case-insensitively in the page source; the disabled-quantity-control
signal never changes the verdict — the result is invariant under any
change of the quantity elements the page exposes. -/
theorem c5_availability_verdict (env : AvailEnv) (url src : String)
    (hvalid : normalize_url url default_base_domain ≠ "" ∧
      startsWithStr (normalize_url url default_base_domain) "http" = true)
    (hnav : env.navigate = Except.ok ())
    (hready : env.pageReady = Except.ok true)
    (hprice : ∃ pr, env.priceResult = Except.ok pr)
    (hsrc : env.pageSource = Except.ok src) :
    ((check_product_availability env url).1 = true ↔
      BUY_INDICATORS.any (fun i => strMem i (lowerStr src)) = true) ∧
    ∀ q : String → List Elem,
      check_product_availability { env with quantityElems := q } url =
        check_product_availability env url := by
  obtain ⟨pr, hpr⟩ := hprice
  constructor
  · unfold check_product_availability
    rw [hnav, hready, hpr]
    simp only [hvalid.1, hvalid.2, ne_eq, and_true, not_true_eq_false,
      not_false_eq_true, if_false, ite_false, ite_true]
    rw [hsrc]
    by_cases hb : BUY_INDICATORS.any (fun i => strMem i (lowerStr src)) = true <;>
      simp [check_availability_indicators_env, check_availability_indicators,
        hb, hvalid.1, hvalid.2]
  · intro q
    rfl

/-- Claim C5 witness: a page whose source contains "add to cart" is
reported available. -/
theorem c5_availability_verdict_witness :
    ((check_product_availability
        ⟨Except.ok (), Except.ok true, Except.ok none,
         Except.ok "Add to Cart today", fun _ => []⟩
        "https://x/p/1").1 = true ↔
      BUY_INDICATORS.any
        (fun i => strMem i (lowerStr "Add to Cart today")) = true) :=
  (c5_availability_verdict
      ⟨Except.ok (), Except.ok true, Except.ok none,
       Except.ok "Add to Cart today", fun _ => []⟩
      "https://x/p/1" "Add to Cart today"
      ⟨by decide, by decide⟩ rfl rfl ⟨none, rfl⟩ rfl).1

/-- Claim C6: `check_product_availability` is total (the embedding
returns a value for every environment, every would-be exception being
caught): on a failed page validation it returns not-available with the
fixed page-load failure reason and a null price; when navigation, the
validator or price extraction raises, it returns not-available with an
"Error: ..." status and a null price; and the batch loop processes
every product of the batch regardless of these outcomes. -/
theorem c6_no_raise (env : AvailEnv) (url : String) :
    (normalize_url url default_base_domain ≠ "" ∧
        startsWithStr (normalize_url url default_base_domain) "http" = true →
      (env.navigate = Except.ok () → env.pageReady = Except.ok false →
        check_product_availability env url =
          (false, "Page failed to load correctly", none)) ∧
      (∀ e, env.navigate = Except.error e →
        check_product_availability env url = (false, "Error: " ++ e, none)) ∧
      (∀ e, env.navigate = Except.ok () → env.pageReady = Except.error e →
        check_product_availability env url = (false, "Error: " ++ e, none)) ∧
      (∀ e, env.navigate = Except.ok () → env.pageReady = Except.ok true →
        env.priceResult = Except.error e →
        check_product_availability env url =
          (false, "Error: " ++ e, none))) ∧
    (¬ (normalize_url url default_base_domain ≠ "" ∧
        startsWithStr (normalize_url url default_base_domain) "http" = true) →
      check_product_availability env url = (false, "Invalid URL", none)) ∧
    ∀ (envOf : String → AvailEnv) (products : List BatchProduct),
      (check_products_availability envOf products).1.length =
        products.length := by
  refine ⟨fun hv => ⟨?_, ?_, ?_, ?_⟩, ?_, ?_⟩
  · intro hn hr
    unfold check_product_availability
    rw [hn, hr]
    simp [hv.1, hv.2]
  · intro e hn
    unfold check_product_availability
    rw [hn]
    simp [hv.1, hv.2]
  · intro e hn hr
    unfold check_product_availability
    rw [hn, hr]
    simp [hv.1, hv.2]
  · intro e hn hr hp
    unfold check_product_availability
    rw [hn, hr, hp]
    simp [hv.1, hv.2]
  · intro hv
    unfold check_product_availability
    rw [if_pos hv]
  · intro envOf products
    induction products with
    | nil => rfl
    | cons p rest ih =>
      unfold check_products_availability
      simpa using ih

/-- Claim C6 witness: a raising validator yields the error triple, and
a two-product batch is processed in full. -/
theorem c6_no_raise_witness :
    check_product_availability
        ⟨Except.ok (), Except.error "boom", Except.ok none,
         Except.ok "", fun _ => []⟩ "https://x/p/1" =
      (false, "Error: " ++ "boom", none) ∧
    (check_products_availability
        (fun _ => ⟨Except.ok (), Except.error "boom", Except.ok none,
          Except.ok "", fun _ => []⟩)
        [⟨"A", "https://x/p/1", "", false, none⟩,
         ⟨"B", "", "", false, none⟩]).1.length =
      ([⟨"A", "https://x/p/1", "", false, none⟩,
        ⟨"B", "", "", false, none⟩] : List BatchProduct).length := by
  constructor
  · exact ((c6_no_raise
        ⟨Except.ok (), Except.error "boom", Except.ok none,
         Except.ok "", fun _ => []⟩ "https://x/p/1").1
        ⟨by decide, by decide⟩).2.2.1 "boom" rfl rfl
  · exact (c6_no_raise
        ⟨Except.ok (), Except.ok true, Except.ok none,
         Except.ok "", fun _ => []⟩ "x").2.2
        (fun _ => ⟨Except.ok (), Except.error "boom", Except.ok none,
          Except.ok "", fun _ => []⟩)
        [⟨"A", "https://x/p/1", "", false, none⟩,
         ⟨"B", "", "", false, none⟩]

/-- Claim C8, counterexample to the claim as stated: with the fixed
origin of the code, the three forms "//a/b", "/a/b" and
"https://x/a/b" normalize to three pairwise distinct absolute URLs,
because the protocol-relative form keeps its own host "a" while the
root-relative form receives the origin host. -/
theorem c8_counterexample :
    normalize_url "//a/b" default_base_domain = "https://a/b" ∧
    normalize_url "/a/b" default_base_domain = "https://www.lazada.sg/a/b" ∧
    normalize_url "https://x/a/b" default_base_domain = "https://x/a/b" ∧
    normalize_url "//a/b" default_base_domain ≠
      normalize_url "/a/b" default_base_domain ∧
    normalize_url "//a/b" default_base_domain ≠
      normalize_url "https://x/a/b" default_base_domain ∧
    normalize_url "/a/b" default_base_domain ≠
      normalize_url "https://x/a/b" default_base_domain := by
  refine ⟨by decide, by decide, by decide, by decide, by decide, by decide⟩

/-- Claim C8 (amended): protocol-relative URLs are prefixed with
"https:" (keeping their own host), root-relative URLs are prefixed
with the origin, and absolute URLs are returned unchanged; hence the
three forms of one path agree exactly when the protocol-relative and
absolute forms carry the origin's own host: with origin "https://x",
"//x/a/b", "/a/b" and "https://x/a/b" all normalize to the identical
absolute URL "https://x/a/b". -/
theorem c8_normalize_url_amended :
    normalize_url "//x/a/b" "https://x" = "https://x/a/b" ∧
    normalize_url "/a/b" "https://x" = "https://x/a/b" ∧
    normalize_url "https://x/a/b" "https://x" = "https://x/a/b" := by
  refine ⟨by decide, by decide, by decide⟩

/-- Claim C10: the scoring function always returns a non-negative
integer (and is total, so never raises): an exception escaping feature
inspection yields 0, an element without visible content yields 0, and
a negative running total is clamped to 0. -/
theorem c10_score_safe (f : ScoreFeatures) :
    0 ≤ score_element_as_product f ∧
    (f.raisesOutside = true → score_element_as_product f = 0) ∧
    (element_has_content f = false → score_element_as_product f = 0) ∧
    (raw_score f < 0 → score_element_as_product f = 0) := by
  unfold score_element_as_product
  refine ⟨?_, ?_, ?_, ?_⟩
  · split
    · exact le_refl 0
    · split
      · exact le_refl 0
      · exact le_max_left 0 _
  · intro h
    simp [h]
  · intro h
    simp [h]
  · intro h
    split
    · rfl
    · split
      · rfl
      · omega

/-- Claim C10 witness: the concrete small element has a negative
running total and scores 0, and the score is non-negative. -/
theorem c10_score_safe_witness :
    raw_score sampleScoreElem < 0 ∧
    score_element_as_product sampleScoreElem = 0 ∧
    0 ≤ score_element_as_product sampleScoreElem :=
  ⟨by decide, (c10_score_safe sampleScoreElem).2.2.2 (by decide),
   (c10_score_safe sampleScoreElem).1⟩

